import Mathlib

/-!
Verification of the blog platform API (`src/blog/`): a shallow embedding of
the Django REST Framework views, serializers and models in Lean 4, with
theorems settling the specification claims about authorization guards,
cache-aside consistency, comment-tree operations, like uniqueness, and
taxonomy get-or-create semantics.

Records are embedded as Lean structures, the relational store and the cache
as association lists, and each HTTP handler as a pure function returning
`Except ApiError` (success) together with the updated state.
-/

namespace BlogApi

/-- Error responses of the API layer (`rest_framework.status` codes used in
`views.py`): 401 unauthorized, 403 forbidden, 404 not found, 400 bad
request, and an unhandled ORM `DoesNotExist` escaping as a server error. -/
inductive ApiError where
  | unauthorized
  | forbidden
  | notFound
  | badRequest
  | serverError
deriving Repr, DecidableEq

/-- Model `blog.models.BlogPost` (models.py:31-58): title, content, owning author,
plus the category/tags relations attached by `BlogPostSerializer`
(serializers.py:91-135). The category reference and the tag id set live on
the post row as in the spec's data model. -/
structure BlogPost where
  id : Nat
  title : String
  content : String
  author : Nat
  category : Option Nat
  tags : List Nat
deriving Repr, DecidableEq

/-- Model `blog.models.Comment` (models.py:60-87): post reference, author,
content, and an optional self-referential parent for replies. -/
structure Comment where
  id : Nat
  post : Nat
  author : Nat
  content : String
  parent : Option Nat
deriving Repr, DecidableEq

/-- Look up a blog post row by primary key (`BlogPost.objects.get(pk=...)` /
the generic view's object lookup). -/
def findPost (posts : List BlogPost) (pid : Nat) : Option BlogPost :=
  posts.find? (fun p => p.id == pid)

/-- Look up a comment row by primary key. -/
def findComment (comments : List Comment) (cid : Nat) : Option Comment :=
  comments.find? (fun c => c.id == cid)

/-- Permission `IsAuthenticatedOrReadOnly` for an unsafe method (PATCH/DELETE/POST):
the request passes the permission check exactly when a user is
authenticated. This is the ONLY permission configured on
`BlogPostRetrieveUpdateDestroyView` and `CommentRetrieveUpdateDestroyView`
(views.py:191, views.py:268); neither view declares an object-level
author check. -/
def writeAllowed (requester : Option Nat) : Bool :=
  requester.isSome

/-- The writable payload of `BlogPostSerializer` for an update:
`read_only_fields = ['id', 'author', 'created_at', 'updated_at']`
(serializers.py:101), so only title and content reach the row here;
category and tags are handled separately by `BlogPostSerializer.update`. -/
structure PostChanges where
  title : Option String
  content : Option String
deriving Repr, DecidableEq

/-- Apply the serializer's field updates to a post row (`serializer.save()`
writing the validated writable fields; id and author are read-only). -/
def applyPostChanges (ch : PostChanges) (p : BlogPost) : BlogPost :=
  { p with
    title := ch.title.getD p.title
    content := ch.content.getD p.content }

/-- PATCH `BlogPostRetrieveUpdateDestroyView` (views.py:175-215) without the
cache (the cache interaction is modelled separately for the consistency
claim): permission check, object lookup, then `serializer.save()` writes
the row. There is no author comparison anywhere on this path. -/
def blogPostUpdate (posts : List BlogPost) (requester : Option Nat)
    (pid : Nat) (ch : PostChanges) : Except ApiError (List BlogPost) :=
  if !writeAllowed requester then .error .unauthorized
  else
    match findPost posts pid with
    | none => .error .notFound
    | some old =>
        .ok (posts.map (fun p => if p.id == pid then applyPostChanges ch old else p))

/-- DELETE `BlogPostRetrieveUpdateDestroyView` (views.py:217-226) without
the cache: permission check, object lookup, `instance.delete()`. Again no
author comparison. -/
def blogPostDestroy (posts : List BlogPost) (requester : Option Nat)
    (pid : Nat) : Except ApiError (List BlogPost) :=
  if !writeAllowed requester then .error .unauthorized
  else
    match findPost posts pid with
    | none => .error .notFound
    | some _ => .ok (posts.filter (fun p => p.id != pid))

/-! ## Cache-aside content access (views.py:144-226)

The Django cache (`django.core.cache.cache`) is a key-value store with TTL.
Within one request there is no expiry event, so TTL is not part of the
sequential model; an entry is present or absent. Keys used by the code are
`blog_post_{pk}` (one per post id, modelled by a `Nat`-keyed association
list) and `blog_posts` (the whole-list key). -/

/-- The content store together with the two families of cache entries. -/
structure ContentState where
  posts : List BlogPost
  postCache : List (Nat × BlogPost)
  listCache : Option (List BlogPost)
deriving Repr, DecidableEq

/-- Cache read, `cache.get` at the per-post key. -/
def cacheGetPost (c : List (Nat × BlogPost)) (k : Nat) : Option BlogPost :=
  (c.find? (fun e => e.1 == k)).map (fun e => e.2)

/-- Cache write, `cache.set` at the per-post key: replace any entry at the key. -/
def cacheSetPost (c : List (Nat × BlogPost)) (k : Nat) (v : BlogPost) :
    List (Nat × BlogPost) :=
  (k, v) :: c.filter (fun e => e.1 != k)

/-- Cache delete at the per-post key. -/
def cacheDeletePost (c : List (Nat × BlogPost)) (k : Nat) :
    List (Nat × BlogPost) :=
  c.filter (fun e => e.1 != k)

/-- Handler `BlogPostRetrieveUpdateDestroyView.get_object` (views.py:193-204): try
the cache; `if not obj:` falls through to the store lookup and populates
the cache on a hit in the store. Returns the object found (if any) and the
state after the opportunistic cache fill. -/
def getObject (s : ContentState) (pid : Nat) :
    Option BlogPost × ContentState :=
  match cacheGetPost s.postCache pid with
  | some obj => (some obj, s)
  | none =>
      match findPost s.posts pid with
      | some obj =>
          (some obj, { s with postCache := cacheSetPost s.postCache pid obj })
      | none => (none, s)

/-- Handler `BlogPostListCreateView.get_queryset` (views.py:162-173): try the
`blog_posts` key; `if not queryset:` treats both a missing entry and a
cached empty queryset as a miss (Python truthiness), refetching from the
store and caching the result. -/
def getQueryset (s : ContentState) : List BlogPost × ContentState :=
  match s.listCache with
  | some l =>
      if l.isEmpty then
        (s.posts, { s with listCache := some s.posts })
      else (l, s)
  | none => (s.posts, { s with listCache := some s.posts })

/-- Handler `perform_update` (views.py:206-215): `serializer.save()` writes the row
to the store, then the single-entry cache is refreshed with the saved
instance and the list key is deleted. The permission/lookup phases mirror
`blogPostUpdate`; the saved instance is the serializer's updated object. -/
def blogPostUpdateCached (s : ContentState) (requester : Option Nat)
    (pid : Nat) (ch : PostChanges) : Except ApiError ContentState :=
  if !writeAllowed requester then .error .unauthorized
  else
    let r := getObject s pid
    match r.1 with
    | none => .error .notFound
    | some old =>
        let s1 := r.2
        let inst := applyPostChanges ch old
        .ok { posts := s1.posts.map (fun p => if p.id == inst.id then inst else p)
              postCache := cacheSetPost s1.postCache inst.id inst
              listCache := none }

/-- Handler `perform_destroy` (views.py:217-226): delete the single-entry cache key
and the list key, then delete the row from the store. -/
def blogPostDestroyCached (s : ContentState) (requester : Option Nat)
    (pid : Nat) : Except ApiError ContentState :=
  if !writeAllowed requester then .error .unauthorized
  else
    let r := getObject s pid
    match r.1 with
    | none => .error .notFound
    | some inst =>
        let s1 := r.2
        .ok { posts := s1.posts.filter (fun p => p.id != inst.id)
              postCache := cacheDeletePost s1.postCache inst.id
              listCache := none }

/-! ## Comments (views.py:228-277, serializers.py:146-172) -/

/-- A per-user notification row (spec data model; the `Notification` model
is imported by views.py:13-14 but its definition is not under `src/`). -/
structure Notification where
  user : Nat
  message : String
deriving Repr, DecidableEq

/-- Modelled from the spec: `send_notification` lives in `blog/utils.py`,
which is absent from `src/` (views.py:12 imports it). Per the spec it is a
fire-and-forget dispatch: "failure to notify must not fail the comment
creation". The `dispatchFails` flag stands for the environment making the
underlying dispatch fail; the function records the notification only on
success and never signals an error to its caller. -/
def sendNotification (dispatchFails : Bool) (store : List Notification)
    (user : Nat) (message : String) : List Notification :=
  if dispatchFails then store else store ++ [⟨user, message⟩]

/-- State touched by comment creation: the post rows, the comment rows, and
the notification rows written by the side effect. -/
structure CommentState where
  posts : List BlogPost
  comments : List Comment
  notifications : List Notification
deriving Repr, DecidableEq

/-- A fresh primary key for a new comment row. -/
def freshCommentId (comments : List Comment) : Nat :=
  (comments.map (fun c => c.id)).foldr max 0 + 1

/-- POST `CommentListCreateView` (views.py:244-252 with
`CommentSerializer.create`, serializers.py:168-172): permission check
(`IsAuthenticatedOrReadOnly`), field validation (the `post` and `parent`
primary-key related fields must reference existing rows, else a 400
validation error), then `Comment.objects.create(**validated_data)` with
`author=self.request.user`, then `send_notification(comment.post.author, ...)`.
The serializer performs NO check that a supplied parent belongs to the
same post (serializers.py:168-172). -/
def commentCreate (s : CommentState) (requester : Option Nat)
    (postId : Nat) (content : String) (parentId : Option Nat)
    (dispatchFails : Bool) : Except ApiError (Comment × CommentState) :=
  match requester with
  | none => .error .unauthorized
  | some uid =>
      match findPost s.posts postId with
      | none => .error .badRequest
      | some post =>
          let parentOk := match parentId with
            | none => true
            | some pid => (findComment s.comments pid).isSome
          if !parentOk then .error .badRequest
          else
            let c : Comment :=
              ⟨freshCommentId s.comments, postId, uid, content, parentId⟩
            .ok (c,
              { s with
                comments := s.comments ++ [c]
                notifications := sendNotification dispatchFails
                  s.notifications post.author
                  ("New comment on your post: " ++ content) })

/-- GET `CommentListCreateView` (views.py:228-242): the queryset is
`Comment.objects.all()` — the `post_id` URL argument is never consulted and
no `parent` filter is applied. `CommentSerializer` (serializers.py:156-166)
attaches to each comment its `replies` relation: the comments whose
`parent` is that comment. -/
def commentListForPost (comments : List Comment) (postId : Nat) :
    List (Comment × List Comment) :=
  comments.map (fun c =>
    (c, comments.filter (fun r => r.parent == some c.id)))

/-- Whether, within `fuel` parent-link steps, the ancestry chain of the
comment with id `cid` reaches the comment with id `root` (the chain of a
comment includes itself). -/
def chainReaches (comments : List Comment) : Nat → Nat → Nat → Bool
  | 0, cid, root => cid == root
  | fuel + 1, cid, root =>
      cid == root ||
      match findComment comments cid with
      | none => false
      | some c =>
          match c.parent with
          | none => false
          | some pid => chainReaches comments fuel pid root

/-- Ids deleted by the database cascade when the comment `root` is deleted:
`parent` is declared `on_delete=models.CASCADE` (models.py:78), so the
deletion closes over the reply relation — every comment whose ancestry
chain leads to `root` goes. -/
def cascadeDelete (comments : List Comment) (root : Nat) : List Comment :=
  comments.filter (fun c => !chainReaches comments comments.length c.id root)

/-- DELETE `CommentRetrieveUpdateDestroyView` (views.py:254-268): the only
permission is `IsAuthenticatedOrReadOnly` (views.py:268) — there is no
author comparison — then `instance.delete()` with the model cascade. -/
def commentDestroy (comments : List Comment) (requester : Option Nat)
    (cid : Nat) : Except ApiError (List Comment) :=
  if !writeAllowed requester then .error .unauthorized
  else
    match findComment comments cid with
    | none => .error .notFound
    | some _ => .ok (cascadeDelete comments cid)

/-- The writable payload of `CommentSerializer` for an update: `content`,
`post` and `parent` are writable (serializers.py:165-166 marks only id,
author, replies and the timestamps read-only). -/
structure CommentChanges where
  content : Option String
  post : Option Nat
  parent : Option (Option Nat)
deriving Repr, DecidableEq

/-- PATCH `CommentRetrieveUpdateDestroyView.perform_update`
(views.py:270-277): permission check, lookup, then
`serializer.save(author=self.request.user)` — the author column is
overwritten with the REQUESTING user, whoever they are. -/
def commentUpdate (comments : List Comment) (requester : Option Nat)
    (cid : Nat) (ch : CommentChanges) : Except ApiError (List Comment) :=
  match requester with
  | none => .error .unauthorized
  | some uid =>
      match findComment comments cid with
      | none => .error .notFound
      | some old =>
          let inst : Comment :=
            { old with
              content := ch.content.getD old.content
              post := ch.post.getD old.post
              parent := ch.parent.getD old.parent
              author := uid }
          .ok (comments.map (fun c => if c.id == cid then inst else c))

/-! ## Likes (views.py:279-346)

The `Like` model is imported by views.py:13 but not defined under `src/`;
per the spec's data model a like row is the pair (user_id, post_id) with a
uniqueness constraint. The view-level logic below is embedded from
views.py. -/

/-- Handler `LikePostView.post` (views.py:295-311): `BlogPost.objects.get` raises
an unhandled `DoesNotExist` when the post is missing (a server error);
otherwise a second like by the same user for the same post is rejected with
400, else the row is created. The requester is authenticated
(`IsAuthenticated`, views.py:293). -/
def likePost (posts : List BlogPost) (likes : List (Nat × Nat))
    (requester : Option Nat) (postId : Nat) :
    Except ApiError (List (Nat × Nat)) :=
  match requester with
  | none => .error .unauthorized
  | some uid =>
      match findPost posts postId with
      | none => .error .serverError
      | some _ =>
          if (uid, postId) ∈ likes then .error .badRequest
          else .ok (likes ++ [(uid, postId)])

/-- Handler `UnlikePostView.delete` (views.py:329-346): remove the requester's like
row for the post if one exists (`.first()` then `.delete()`), else 400. -/
def unlikePost (posts : List BlogPost) (likes : List (Nat × Nat))
    (requester : Option Nat) (postId : Nat) :
    Except ApiError (List (Nat × Nat)) :=
  match requester with
  | none => .error .unauthorized
  | some uid =>
      match findPost posts postId with
      | none => .error .serverError
      | some _ =>
          match likes.find? (fun l => l == (uid, postId)) with
          | some _ => .ok (likes.eraseP (fun l => l == (uid, postId)))
          | none => .error .badRequest

/-! ## Taxonomy: categories, tags, get-or-create (serializers.py:75-135)

The `Category` and `Tag` models are imported by serializers.py:8 but are
not defined under `src/`; per the spec's data model each is
{id, name (unique), slug (unique)}. `Category.objects.get_or_create(**data)`
and `Tag.objects.get_or_create(**data)` are the ORM's standard get-or-create:
fetch the row matching all supplied fields or insert one. -/

/-- Category or tag row with fields id, name, slug (spec data model; the model
definitions are not under `src/`). -/
structure Label where
  id : Nat
  name : String
  slug : String
deriving Repr, DecidableEq

/-- A fresh primary key for a new label row. -/
def freshLabelId (rows : List Label) : Nat :=
  (rows.map (fun r => r.id)).foldr max 0 + 1

/-- ORM `objects.get_or_create` on name and slug: return the first row whose
fields all match, or insert a new row and return it. -/
def getOrCreate (rows : List Label) (name slug : String) :
    Label × List Label :=
  match rows.find? (fun r => r.name == name && r.slug == slug) with
  | some r => (r, rows)
  | none =>
      let r : Label := ⟨freshLabelId rows, name, slug⟩
      (r, rows ++ [r])

/-- Resolve a list of tag payloads in order, each via get-or-create,
returning the resolved ids in the order they are `add`ed and the final tag
store (the loop of serializers.py:112-114 and 131-133). -/
def resolveTags (tagStore : List Label) :
    List (String × String) → List Nat × List Label
  | [] => ([], tagStore)
  | (name, slug) :: rest =>
      let r := getOrCreate tagStore name slug
      let rr := resolveTags r.2 rest
      (r.1.id :: rr.1, rr.2)

/-- A fresh primary key for a new blog post row. -/
def freshPostId (posts : List BlogPost) : Nat :=
  (posts.map (fun p => p.id)).foldr max 0 + 1

/-- Serializer method `BlogPostSerializer.create` (serializers.py:103-116): pop the category
payload and the tag payloads, get-or-create the category, create the post
row referencing it, then get-or-create each tag and add it to the post.
Returns the created post and the updated category, tag and post stores. -/
def blogPostSerializerCreate (cats tagStore : List Label)
    (posts : List BlogPost) (author : Nat) (title content : String)
    (categoryData : String × String) (tagsData : List (String × String)) :
    BlogPost × List Label × List Label × List BlogPost :=
  let rc := getOrCreate cats categoryData.1 categoryData.2
  let rt := resolveTags tagStore tagsData
  let p : BlogPost :=
    ⟨freshPostId posts, title, content, author, some rc.1.id, rt.1⟩
  (p, rc.2, rt.2, posts ++ [p])

/-- Serializer method `BlogPostSerializer.update` (serializers.py:118-135): pop category and
tags with default `None`; `if category_data:` get-or-create and reassign;
`if tags_data:` clear the tag set and re-add each resolved tag — note the
Python truthiness: an EMPTY tags list is falsy, so the clear-and-replace
branch is skipped for it; then the remaining writable fields are written. -/
def blogPostSerializerUpdate (cats tagStore : List Label)
    (inst0 : BlogPost) (categoryData : Option (String × String))
    (tagsData : Option (List (String × String))) (ch : PostChanges) :
    BlogPost × List Label × List Label :=
  let rc : Option Nat × List Label :=
    match categoryData with
    | none => (none, cats)
    | some cd =>
        let r := getOrCreate cats cd.1 cd.2
        (some r.1.id, r.2)
  let rt : List Nat × List Label :=
    match tagsData with
    | none => (inst0.tags, tagStore)
    | some ts =>
        if ts.isEmpty then (inst0.tags, tagStore)
        else resolveTags tagStore ts
  let inst :=
    { inst0 with
      category := match rc.1 with
        | some cid => some cid
        | none => inst0.category
      tags := rt.1
      title := ch.title.getD inst0.title
      content := ch.content.getD inst0.content }
  (inst, rc.2, rt.2)

/-! ## Theorems settling the claims -/

/-- C1: The claim says a non-author's update or delete of a post fails
with Forbidden and leaves the post unchanged. The code has no author guard:
`BlogPostRetrieveUpdateDestroyView` carries only `IsAuthenticatedOrReadOnly`
(views.py:191), so any authenticated user succeeds — contradicting the
repository's own tests (`test_update_post_unauthorized`,
`test_delete_post_unauthorized` expect 403). Evaluated at the tests' own
scenario: user 2 mutating the post authored by user 1 succeeds and the
post IS changed (respectively deleted). -/
theorem C1_nonauthor_mutation_succeeds :
    blogPostUpdate [⟨1, "Test Post", "Content of the test post", 1, none, []⟩]
        (some 2) 1 ⟨some "Unauthorized Update", none⟩ =
      .ok [⟨1, "Unauthorized Update", "Content of the test post", 1, none, []⟩] ∧
    blogPostDestroy [⟨1, "Test Post", "Content of the test post", 1, none, []⟩]
        (some 2) 1 = .ok [] := by
  exact ⟨rfl, rfl⟩

/-- C3: The claim says only a comment's author may delete it (others get
Forbidden and the comment survives), and that deletion cascades to the reply
subtree. The cascade part holds (`parent` is `on_delete=CASCADE`,
models.py:78), but the guard does not exist:
`CommentRetrieveUpdateDestroyView` carries only `IsAuthenticatedOrReadOnly`
(views.py:268), contradicting the repository's own test
`test_delete_comment_unauthorized` (expects 403). Evaluated concretely:
user 2 deletes the comment authored by user 1; the request succeeds, the
comment and its two-level reply chain are gone, and only the unrelated
comment survives. -/
theorem C3_nonauthor_delete_succeeds :
    commentDestroy
        [⟨1, 1, 1, "Test Comment", none⟩,
         ⟨2, 1, 1, "Reply", some 1⟩,
         ⟨3, 1, 1, "Reply to reply", some 2⟩,
         ⟨4, 1, 1, "Unrelated", none⟩]
        (some 2) 1 =
      .ok [⟨4, 1, 1, "Unrelated", none⟩] := by
  rfl

/-- C4: The claim says supplying a `parent_id` whose comment belongs to
a different post fails with `InvalidReference`. `CommentSerializer.create`
(serializers.py:168-172) performs no such check — despite its own docstring
("ensure valid nested replies") — so the cross-post reply is accepted and
stored: with comment 1 living on post 1, creating a comment on post 2 with
parent 1 succeeds, and the stored reply's parent belongs to post 1 ≠ 2. -/
theorem C4_cross_post_parent_accepted :
    commentCreate
        ⟨[⟨1, "A", "a", 1, none, []⟩, ⟨2, "B", "b", 2, none, []⟩],
         [⟨1, 1, 1, "on post A", none⟩], []⟩
        (some 5) 2 "cross-post reply" (some 1) false =
      .ok (⟨2, 2, 5, "cross-post reply", some 1⟩,
        ⟨[⟨1, "A", "a", 1, none, []⟩, ⟨2, "B", "b", 2, none, []⟩],
         [⟨1, 1, 1, "on post A", none⟩, ⟨2, 2, 5, "cross-post reply", some 1⟩],
         [⟨2, "New comment on your post: cross-post reply"⟩]⟩) ∧
    (findComment [⟨1, 1, 1, "on post A", none⟩] 1).map Comment.post ≠
      some 2 := by
  exact ⟨rfl, by decide⟩

/-- C7 counterexample: The claim says the comment listing for a post
returns exactly that post's parentless comments. The view's queryset is
`Comment.objects.all()` (views.py:240) with no post filter and no parent
filter: listing "for post 1" also returns the comment that lives on post 2,
so the claim as stated is false. -/
theorem C7_counterexample :
    ¬ (∀ e ∈ commentListForPost
          [⟨1, 1, 1, "a", none⟩, ⟨2, 2, 1, "b", none⟩, ⟨3, 1, 1, "c", some 1⟩]
          1,
        e.1.post = 1 ∧ e.1.parent = none) := by
  decide

/-- C8 counterexample: The claim says a supplied tag payload totally
replaces the post's tag set, including the empty payload. The code guards
the replacement with `if tags_data:` (serializers.py:129) and an empty list
is falsy in Python, so an update supplying the empty tag set leaves the old
tags in place: a post with tag 1 updated with tags `[]` still has `[1]`,
not `[]`. -/
theorem C8_counterexample :
    (blogPostSerializerUpdate [] [⟨1, "Django", "django"⟩]
        ⟨1, "t", "c", 1, none, [1]⟩ none (some []) ⟨none, none⟩).1.tags = [1] ∧
    ([1] : List Nat) ≠ [] := by
  exact ⟨rfl, by decide⟩

/-- A find by primary key only returns a comment with that key. -/
lemma findComment_some_id {comments : List Comment} {cid : Nat} {c : Comment}
    (h : findComment comments cid = some c) : c.id = cid := by
  have := List.find?_some h
  simpa using this

/-- A find by primary key only returns a post with that key. -/
lemma findPost_some_id {posts : List BlogPost} {pid : Nat} {p : BlogPost}
    (h : findPost posts pid = some p) : p.id = pid := by
  have := List.find?_some h
  simpa using this

/-- C10: `CommentRetrieveUpdateDestroyView.perform_update` passes
`author=self.request.user` to `serializer.save()` (views.py:277): after any
successful update by requester `uid`, the stored row with the updated
comment's id carries author `uid` — the original author is not preserved
when a different authenticated user performs the update. -/
theorem C10_update_reassigns_author (comments : List Comment) (uid cid : Nat)
    (ch : CommentChanges) (out : List Comment)
    (h : commentUpdate comments (some uid) cid ch = .ok out) :
    (∀ c ∈ out, c.id = cid → c.author = uid) ∧
    ∃ c ∈ out, c.id = cid ∧ c.author = uid := by
  unfold commentUpdate at h
  cases hfind : findComment comments cid with
  | none => simp [hfind] at h
  | some old =>
      simp only [hfind] at h
      have hout : out =
          comments.map (fun c => if c.id == cid then
            { old with
              content := ch.content.getD old.content
              post := ch.post.getD old.post
              parent := ch.parent.getD old.parent
              author := uid } else c) := by
        cases h
        rfl
      have hold_id : old.id = cid := findComment_some_id hfind
      constructor
      · intro c hc hcid
        rw [hout] at hc
        rcases List.mem_map.mp hc with ⟨orig, _, rfl⟩
        by_cases hid : orig.id == cid
        · simp [hid]
        · simp only [hid, if_neg] at hcid ⊢
          simp at hid
          exact absurd hcid hid
      · refine ⟨{ old with
            content := ch.content.getD old.content
            post := ch.post.getD old.post
            parent := ch.parent.getD old.parent
            author := uid }, ?_, ?_, rfl⟩
        · rw [hout]
          have hmem := List.mem_of_find?_eq_some hfind
          have := List.mem_map_of_mem (fun c => if c.id == cid then
            { old with
              content := ch.content.getD old.content
              post := ch.post.getD old.post
              parent := ch.parent.getD old.parent
              author := uid } else c) hmem
          simpa [hold_id] using this
        · exact hold_id

/-- C10 witness: The theorem instantiated at a concrete update: user 2
updates comment 1 authored by user 1. -/
theorem C10_update_reassigns_author_witness :
    commentUpdate [⟨1, 1, 1, "old", none⟩] (some 2) 1 ⟨some "new", none, none⟩ =
      .ok [⟨1, 1, 2, "new", none⟩] ∧
    ((∀ c ∈ [(⟨1, 1, 2, "new", none⟩ : Comment)], c.id = 1 → c.author = 2) ∧
     ∃ c ∈ [(⟨1, 1, 2, "new", none⟩ : Comment)], c.id = 1 ∧ c.author = 2) :=
  ⟨rfl, C10_update_reassigns_author [⟨1, 1, 1, "old", none⟩] 2 1
    ⟨some "new", none, none⟩ [⟨1, 1, 2, "new", none⟩] rfl⟩

/-- C6: If a comment creation succeeds with the notification dispatch
healthy, then it succeeds with the *same* created comment and the same
comment store under ANY dispatch outcome: `send_notification` is
best-effort and a dispatch failure never fails the request nor unpersists
the comment (views.py:244-252 with the spec-modelled `sendNotification`). -/
theorem C6_notification_failure_harmless (s : CommentState) (req : Option Nat)
    (postId : Nat) (content : String) (parentId : Option Nat)
    (c : Comment) (s0 : CommentState)
    (h : commentCreate s req postId content parentId false = .ok (c, s0)) :
    ∀ f : Bool, ∃ s' : CommentState,
      commentCreate s req postId content parentId f = .ok (c, s') ∧
      c ∈ s'.comments ∧ s'.comments = s0.comments := by
  intro f
  unfold commentCreate at h ⊢
  cases req with
  | none => simp at h
  | some uid =>
      cases hpost : findPost s.posts postId with
      | none => simp [hpost] at h
      | some post =>
          simp only [hpost] at h ⊢
          cases hpar : (match parentId with
            | none => true
            | some pid => (findComment s.comments pid).isSome) with
          | false => simp [hpar] at h
          | true =>
              simp only [hpar, Bool.not_true, Bool.false_eq_true,
                if_false] at h ⊢
              rw [Except.ok.injEq, Prod.mk.injEq] at h
              obtain ⟨hc, hs⟩ := h
              subst hc
              subst hs
              exact ⟨_, rfl, by simp, rfl⟩

/-- C6 witness: The theorem instantiated at a concrete creation, with
the dispatch failing (`f = true`): the request still succeeds with the same
comment persisted. -/
theorem C6_notification_failure_harmless_witness :
    commentCreate ⟨[⟨1, "A", "a", 7, none, []⟩], [], []⟩ (some 2) 1 "hi" none
        false =
      .ok (⟨1, 1, 2, "hi", none⟩,
        ⟨[⟨1, "A", "a", 7, none, []⟩], [⟨1, 1, 2, "hi", none⟩],
         [⟨7, "New comment on your post: hi"⟩]⟩) ∧
    ∃ s' : CommentState,
      commentCreate ⟨[⟨1, "A", "a", 7, none, []⟩], [], []⟩ (some 2) 1 "hi" none
          true = .ok (⟨1, 1, 2, "hi", none⟩, s') ∧
      (⟨1, 1, 2, "hi", none⟩ : Comment) ∈ s'.comments ∧
      s'.comments = [⟨1, 1, 2, "hi", none⟩] :=
  ⟨rfl, C6_notification_failure_harmless
    ⟨[⟨1, "A", "a", 7, none, []⟩], [], []⟩ (some 2) 1 "hi" none
    ⟨1, 1, 2, "hi", none⟩
    ⟨[⟨1, "A", "a", 7, none, []⟩], [⟨1, 1, 2, "hi", none⟩],
     [⟨7, "New comment on your post: hi"⟩]⟩ rfl true⟩

/-- C5: Like uniqueness (views.py:295-311, 329-346): when a like row
for `(uid, postId)` already exists, a second like attempt is rejected with
an error; and starting from a duplicate-free like table, both the like and
the unlike operations leave it duplicate-free. -/
theorem C5_like_uniqueness (posts : List BlogPost) (likes : List (Nat × Nat))
    (uid postId : Nat) (hnd : likes.Nodup) :
    ((uid, postId) ∈ likes →
      ∃ e, likePost posts likes (some uid) postId = .error e) ∧
    (∀ likes', likePost posts likes (some uid) postId = .ok likes' →
      likes'.Nodup) ∧
    (∀ likes', unlikePost posts likes (some uid) postId = .ok likes' →
      likes'.Nodup) := by
  refine ⟨?_, ?_, ?_⟩
  · intro hmem
    unfold likePost
    cases hpost : findPost posts postId with
    | none => exact ⟨.serverError, rfl⟩
    | some _ => exact ⟨.badRequest, by simp [hmem]⟩
  · intro likes' h
    unfold likePost at h
    cases hpost : findPost posts postId with
    | none => simp [hpost] at h
    | some _ =>
        simp only [hpost] at h
        by_cases hmem : (uid, postId) ∈ likes
        · simp [hmem] at h
        · simp only [hmem, if_neg, if_false, Except.ok.injEq] at h
          subst h
          simpa [List.nodup_append] using ⟨hnd, hmem⟩
  · intro likes' h
    unfold unlikePost at h
    cases hpost : findPost posts postId with
    | none => simp [hpost] at h
    | some _ =>
        simp only [hpost] at h
        cases hf : likes.find? (fun l => l == (uid, postId)) with
        | none => simp [hf] at h
        | some _ =>
            simp only [hf, Except.ok.injEq] at h
            subst h
            exact hnd.sublist (List.eraseP_sublist likes)

/-- C5 witness: The theorem instantiated at a table already containing
the like (1, 1): the second attempt errors, and both operations preserve
duplicate-freeness. -/
theorem C5_like_uniqueness_witness :
    ([((1 : Nat), (1 : Nat))].Nodup ∧ ((1 : Nat), (1 : Nat)) ∈ [((1 : Nat), (1 : Nat))]) ∧
    ∃ e, likePost [⟨1, "A", "a", 1, none, []⟩] [(1, 1)] (some 1) 1 =
      .error e :=
  ⟨⟨by decide, by decide⟩,
    (C5_like_uniqueness [⟨1, "A", "a", 1, none, []⟩] [(1, 1)] 1 1
      (by decide)).1 (by decide)⟩

/-- C7 amended: What the comment listing actually returns: EVERY
stored comment — regardless of which post it belongs to and regardless of
whether it is itself a reply — each paired with exactly its direct replies
(the comments whose parent is it). The post id argument has no effect. -/
theorem C7_list_returns_all_comments (comments : List Comment)
    (postId : Nat) :
    (commentListForPost comments postId).map Prod.fst = comments ∧
    ∀ c rs, (c, rs) ∈ commentListForPost comments postId →
      rs = comments.filter (fun r => r.parent == some c.id) ∧
      ∀ r ∈ rs, r.parent = some c.id := by
  constructor
  · unfold commentListForPost
    rw [List.map_map]
    exact List.map_id'' (fun _ => rfl) comments
  · intro c rs hmem
    unfold commentListForPost at hmem
    rcases List.mem_map.mp hmem with ⟨a, _, heq⟩
    rw [Prod.mk.injEq] at heq
    obtain ⟨rfl, rfl⟩ := heq
    refine ⟨rfl, ?_⟩
    intro r hr
    have := (List.mem_filter.mp hr).2
    simpa using this

/-- C7 witness: The amended theorem instantiated at the counterexample
store: the listing "for post 1" is the whole comment table, and the entry
for comment 1 carries exactly its direct reply. -/
theorem C7_list_returns_all_comments_witness :
    ((commentListForPost
        [⟨1, 1, 1, "a", none⟩, ⟨2, 2, 1, "b", none⟩, ⟨3, 1, 1, "c", some 1⟩]
        1).map Prod.fst =
      [⟨1, 1, 1, "a", none⟩, ⟨2, 2, 1, "b", none⟩, ⟨3, 1, 1, "c", some 1⟩]) ∧
    ((⟨1, 1, 1, "a", none⟩, [(⟨3, 1, 1, "c", some 1⟩ : Comment)]) ∈
      commentListForPost
        [⟨1, 1, 1, "a", none⟩, ⟨2, 2, 1, "b", none⟩, ⟨3, 1, 1, "c", some 1⟩]
        1) ∧
    ([(⟨3, 1, 1, "c", some 1⟩ : Comment)] =
      [⟨1, 1, 1, "a", none⟩, ⟨2, 2, 1, "b", none⟩,
        (⟨3, 1, 1, "c", some 1⟩ : Comment)].filter
        (fun r => r.parent == some 1) ∧
      ∀ r ∈ [(⟨3, 1, 1, "c", some 1⟩ : Comment)], r.parent = some 1) :=
  ⟨(C7_list_returns_all_comments
      [⟨1, 1, 1, "a", none⟩, ⟨2, 2, 1, "b", none⟩, ⟨3, 1, 1, "c", some 1⟩]
      1).1,
   by decide,
   (C7_list_returns_all_comments
      [⟨1, 1, 1, "a", none⟩, ⟨2, 2, 1, "b", none⟩, ⟨3, 1, 1, "c", some 1⟩]
      1).2 ⟨1, 1, 1, "a", none⟩ [⟨3, 1, 1, "c", some 1⟩] (by decide)⟩

/-- C8 amended: Tag replacement on update is total for every
NON-EMPTY supplied payload: the resulting tag set is exactly the resolved
supplied set, independent of the post's prior tags. An EMPTY supplied
payload, however, is skipped by the `if tags_data:` truthiness guard and
leaves the prior tag set unchanged. -/
theorem C8_tag_replacement (cats tagStore : List Label)
    (catData : Option (String × String)) (ts : List (String × String))
    (ch : PostChanges) (inst1 inst2 : BlogPost) :
    (ts ≠ [] →
      (blogPostSerializerUpdate cats tagStore inst1 catData (some ts) ch).1.tags
        = (resolveTags tagStore ts).1 ∧
      (blogPostSerializerUpdate cats tagStore inst1 catData (some ts) ch).1.tags
        = (blogPostSerializerUpdate cats tagStore inst2 catData (some ts) ch).1.tags) ∧
    (blogPostSerializerUpdate cats tagStore inst1 catData (some []) ch).1.tags
      = inst1.tags := by
  constructor
  · intro hne
    have hts : ts.isEmpty = false := by
      simpa [List.isEmpty_iff] using hne
    constructor <;> simp [blogPostSerializerUpdate, hts]
  · simp [blogPostSerializerUpdate]

/-- C8 witness: The amended theorem instantiated concretely: two posts
with different prior tag sets updated with the payload `[Django]` both end
with exactly the resolved `[Django]` tag; the empty payload leaves tags
untouched. -/
theorem C8_tag_replacement_witness :
    ([(("Django" : String), ("django" : String))] ≠ []) ∧
    ((blogPostSerializerUpdate [] [⟨1, "Django", "django"⟩]
          ⟨1, "t", "c", 1, none, [5]⟩ none (some [("Django", "django")])
          ⟨none, none⟩).1.tags
        = (resolveTags [⟨1, "Django", "django"⟩] [("Django", "django")]).1 ∧
      (blogPostSerializerUpdate [] [⟨1, "Django", "django"⟩]
          ⟨1, "t", "c", 1, none, [5]⟩ none (some [("Django", "django")])
          ⟨none, none⟩).1.tags
        = (blogPostSerializerUpdate [] [⟨1, "Django", "django"⟩]
            ⟨2, "u", "d", 2, none, [9]⟩ none (some [("Django", "django")])
            ⟨none, none⟩).1.tags) :=
  ⟨by decide,
    (C8_tag_replacement [] [⟨1, "Django", "django"⟩] none
      [("Django", "django")] ⟨none, none⟩ ⟨1, "t", "c", 1, none, [5]⟩
      ⟨2, "u", "d", 2, none, [9]⟩).1 (by decide)⟩

/-- The serializer's field update never touches the primary key. -/
lemma applyPostChanges_id (ch : PostChanges) (p : BlogPost) :
    (applyPostChanges ch p).id = p.id := rfl

/-- A cache hit is what `get_object` answers with. -/
lemma getObject_fst_of_cacheHit {s : ContentState} {pid : Nat} {v : BlogPost}
    (h : cacheGetPost s.postCache pid = some v) :
    (getObject s pid).1 = some v := by
  unfold getObject
  simp [h]

/-- A double miss (cache and store) makes `get_object` answer nothing. -/
lemma getObject_fst_of_doubleMiss {s : ContentState} {pid : Nat}
    (h1 : cacheGetPost s.postCache pid = none)
    (h2 : findPost s.posts pid = none) :
    (getObject s pid).1 = none := by
  unfold getObject
  simp [h1, h2]

/-- A cache whose every entry is stored under its object's own id only
returns, at key `k`, an object whose id is `k`. -/
lemma cacheGetPost_wellKeyed {c : List (Nat × BlogPost)} {k : Nat}
    {v : BlogPost} (hk : ∀ e ∈ c, e.2.id = e.1)
    (h : cacheGetPost c k = some v) : v.id = k := by
  unfold cacheGetPost at h
  cases hf : c.find? (fun e => e.1 == k) with
  | none => simp [hf] at h
  | some e =>
      simp only [hf, Option.map_some'] at h
      have h1 := List.find?_some hf
      have h2 := List.mem_of_find?_eq_some hf
      have h3 := hk e h2
      rw [Option.some.injEq] at h
      subst h
      simp only [beq_iff_eq] at h1
      omega

/-- Whatever `get_object` returns has the id that was asked for, assuming
the cache is well-keyed. -/
lemma getObject_some_id {s : ContentState} {pid : Nat} {obj : BlogPost}
    (hk : ∀ e ∈ s.postCache, e.2.id = e.1)
    (h : (getObject s pid).1 = some obj) : obj.id = pid := by
  unfold getObject at h
  cases hc : cacheGetPost s.postCache pid with
  | some v =>
      simp only [hc, Option.some.injEq] at h
      subst h
      exact cacheGetPost_wellKeyed hk hc
  | none =>
      simp only [hc] at h
      cases hf : findPost s.posts pid with
      | none => simp [hf] at h
      | some p =>
          simp only [hf, Option.some.injEq] at h
          subst h
          exact findPost_some_id hf

/-- Setting a key stores the value under that key and keeps every other
entry, so the well-keyed invariant is preserved when value and key agree. -/
lemma cacheSetPost_wellKeyed {c : List (Nat × BlogPost)} {k : Nat}
    {v : BlogPost} (hk : ∀ e ∈ c, e.2.id = e.1) (hv : v.id = k) :
    ∀ e ∈ cacheSetPost c k v, e.2.id = e.1 := by
  intro e he
  unfold cacheSetPost at he
  rcases List.mem_cons.mp he with h | h
  · subst h
    exact hv
  · exact hk e (List.mem_filter.mp h).1

/-- The opportunistic cache fill of `get_object` preserves the well-keyed
invariant. -/
lemma getObject_preserves_wellKeyed {s : ContentState} {pid : Nat}
    (hk : ∀ e ∈ s.postCache, e.2.id = e.1) :
    ∀ e ∈ (getObject s pid).2.postCache, e.2.id = e.1 := by
  unfold getObject
  cases hc : cacheGetPost s.postCache pid with
  | some v => simpa using hk
  | none =>
      cases hf : findPost s.posts pid with
      | none => simpa using hk
      | some p =>
          simp only
          exact cacheSetPost_wellKeyed hk (findPost_some_id hf)

/-- Reading a key straight after setting it returns the set value. -/
lemma cacheGetPost_set_self (c : List (Nat × BlogPost)) (k : Nat)
    (v : BlogPost) : cacheGetPost (cacheSetPost c k v) k = some v := by
  simp [cacheGetPost, cacheSetPost, List.find?_cons_of_pos]

/-- Reading a key straight after deleting it misses. -/
lemma cacheGetPost_delete_self (c : List (Nat × BlogPost)) (k : Nat) :
    cacheGetPost (cacheDeletePost c k) k = none := by
  unfold cacheGetPost cacheDeletePost
  have : (c.filter (fun e => e.1 != k)).find? (fun e => e.1 == k) = none := by
    rw [List.find?_eq_none]
    intro e he
    have := (List.mem_filter.mp he).2
    simp at this ⊢
    omega
  simp [this]

/-- A primary-key lookup misses on a store from which every row with that
key was just filtered out. -/
lemma findPost_filter_ne (posts : List BlogPost) (pid : Nat) :
    findPost (posts.filter (fun p => p.id != pid)) pid = none := by
  unfold findPost
  rw [List.find?_eq_none]
  intro p hp
  have := (List.mem_filter.mp hp).2
  simp at this ⊢
  omega

/-- A primary-key lookup after the row-replacing write of `perform_update`:
the store answers with the written instance precisely where it previously
answered at all. -/
lemma findPost_map_update (posts : List BlogPost) (pid : Nat)
    (inst : BlogPost) (hid : inst.id = pid) :
    findPost (posts.map (fun p => if p.id == inst.id then inst else p)) pid
      = (findPost posts pid).map (fun _ => inst) := by
  unfold findPost
  induction posts with
  | nil => rfl
  | cons hd tl ih =>
      by_cases hhd : hd.id = pid
      · have h1 : (hd.id == inst.id) = true := by
          simp [hid, hhd]
        have h2 : (hd.id == pid) = true := by simp [hhd]
        simp only [List.map_cons, h1, if_true, List.find?_cons, h2]
        have h3 : (inst.id == pid) = true := by simp [hid]
        simp [h3]
      · have h1 : (hd.id == inst.id) = false := by
          simp [hid]
          omega
        have h2 : (hd.id == pid) = false := by simp [hhd]
        simp only [List.map_cons, h1, Bool.false_eq_true, if_false,
          List.find?_cons, h2]
        exact ih

/-- C2: Cache invalidation is synchronous with the write
(views.py:193-226): given a well-keyed cache, after a successful
`update_post` the immediately following `get_post` returns exactly the
just-saved instance (never the pre-update cached value) and `list_posts`
reads the fresh store; after a successful `delete_post`, `get_post` misses
entirely and `list_posts` reads the fresh store. -/
theorem C2_cache_fresh_after_write (s : ContentState) (req : Option Nat)
    (pid : Nat) (ch : PostChanges)
    (hk : ∀ e ∈ s.postCache, e.2.id = e.1) :
    (∀ s', blogPostUpdateCached s req pid ch = .ok s' →
       ∃ old, (getObject s pid).1 = some old ∧
         (getObject s' pid).1 = some (applyPostChanges ch old) ∧
         findPost s'.posts pid = (findPost s.posts pid).map
           (fun _ => applyPostChanges ch old) ∧
         (getQueryset s').1 = s'.posts) ∧
    (∀ s', blogPostDestroyCached s req pid = .ok s' →
       (getObject s' pid).1 = none ∧ (getQueryset s').1 = s'.posts) := by
  constructor
  · intro s' h
    unfold blogPostUpdateCached at h
    cases hw : writeAllowed req with
    | false => simp [hw] at h
    | true =>
        simp only [hw, Bool.not_true, Bool.false_eq_true, if_false] at h
        cases hobj : (getObject s pid).1 with
        | none => simp [hobj] at h
        | some old =>
            simp only [hobj, Except.ok.injEq] at h
            refine ⟨old, rfl, ?_, ?_, ?_⟩
            · have hid : (applyPostChanges ch old).id = pid := by
                rw [applyPostChanges_id]
                exact getObject_some_id hk hobj
              subst h
              apply getObject_fst_of_cacheHit
              subst hid
              exact cacheGetPost_set_self _ _ _
            · have hid : (applyPostChanges ch old).id = pid := by
                rw [applyPostChanges_id]
                exact getObject_some_id hk hobj
              have hposts1 : (getObject s pid).2.posts = s.posts := by
                unfold getObject
                cases hc : cacheGetPost s.postCache pid <;>
                  cases hf : findPost s.posts pid <;> simp
              subst h
              simp only [hposts1]
              exact findPost_map_update s.posts pid
                (applyPostChanges ch old) hid
            · subst h
              simp [getQueryset]
  · intro s' h
    unfold blogPostDestroyCached at h
    cases hw : writeAllowed req with
    | false => simp [hw] at h
    | true =>
        simp only [hw, Bool.not_true, Bool.false_eq_true, if_false] at h
        cases hobj : (getObject s pid).1 with
        | none => simp [hobj] at h
        | some inst =>
            simp only [hobj, Except.ok.injEq] at h
            have hid : inst.id = pid := getObject_some_id hk hobj
            constructor
            · subst h
              apply getObject_fst_of_doubleMiss
              · subst hid
                exact cacheGetPost_delete_self _ _
              · subst hid
                exact findPost_filter_ne _ _
            · subst h
              simp [getQueryset]

/-- C2 witness: The theorem instantiated at a concrete state whose
cache holds a stale copy of post 1: the update succeeds and the read
immediately after returns the updated content. -/
theorem C2_cache_fresh_after_write_witness :
    (∀ e ∈ [((1 : Nat), (⟨1, "stale", "old", 1, none, []⟩ : BlogPost))],
      e.2.id = e.1) ∧
    ∃ old,
      (getObject ⟨[⟨1, "fresh", "old", 1, none, []⟩],
          [(1, ⟨1, "stale", "old", 1, none, []⟩)], some []⟩ 1).1 = some old ∧
      (getObject ⟨[⟨1, "stale", "new", 1, none, []⟩],
          [(1, ⟨1, "stale", "new", 1, none, []⟩)], none⟩ 1).1 =
        some (applyPostChanges ⟨none, some "new"⟩ old) ∧
      findPost [(⟨1, "stale", "new", 1, none, []⟩ : BlogPost)] 1 =
        (findPost [(⟨1, "fresh", "old", 1, none, []⟩ : BlogPost)] 1).map
          (fun _ => applyPostChanges ⟨none, some "new"⟩ old) ∧
      (getQueryset ⟨[⟨1, "stale", "new", 1, none, []⟩],
          [(1, ⟨1, "stale", "new", 1, none, []⟩)], none⟩).1 =
        [⟨1, "stale", "new", 1, none, []⟩] :=
  ⟨by decide,
    (C2_cache_fresh_after_write
      ⟨[⟨1, "fresh", "old", 1, none, []⟩],
        [(1, ⟨1, "stale", "old", 1, none, []⟩)], some []⟩
      (some 1) 1 ⟨none, some "new"⟩ (by decide)).1
      ⟨[⟨1, "stale", "new", 1, none, []⟩],
        [(1, ⟨1, "stale", "new", 1, none, []⟩)], none⟩ rfl⟩

/-- If filtering keeps exactly `[a]`, then `find?` answers `a`. -/
lemma find?_of_filter_eq_single {α : Type} {l : List α} {p : α → Bool}
    {a : α} (h : l.filter p = [a]) : l.find? p = some a := by
  induction l with
  | nil => simp at h
  | cons hd tl ih =>
      rw [List.filter_cons] at h
      by_cases hp : p hd
      · simp only [hp, if_true] at h
        rw [List.cons.injEq] at h
        rw [List.find?_cons_of_pos _ hp, h.1]
      · simp only [hp, Bool.false_eq_true, if_false] at h
        rw [List.find?_cons_of_neg _ (by simpa using hp)]
        exact ih h

/-- A found element is the whole filtered list when at most one element
passes the filter. -/
lemma filter_eq_single_of_find? {α : Type} {l : List α} {p : α → Bool}
    {a : α} (hf : l.find? p = some a)
    (hlen : (l.filter p).length ≤ 1) : l.filter p = [a] := by
  induction l with
  | nil => simp at hf
  | cons hd tl ih =>
      rw [List.find?_cons] at hf
      rw [List.filter_cons] at hlen ⊢
      by_cases hp : p hd
      · simp only [hp, if_true] at hf hlen ⊢
        rw [Option.some.injEq] at hf
        subst hf
        have hnil : tl.filter p = [] := by
          cases hft : tl.filter p with
          | nil => rfl
          | cons x xs => rw [hft] at hlen; simp at hlen
        rw [hnil]
      · simp only [hp, Bool.false_eq_true, if_false] at hf hlen ⊢
        exact ih hf hlen

/-- Behavior of `get_or_create` under the spec's uniqueness invariant (at most one row
matches the unique name+slug): the returned row matches the payload and is
afterwards the ONLY matching row in the store. -/
lemma getOrCreate_spec (rows : List Label) (n s : String)
    (h : (rows.filter (fun c => c.name == n && c.slug == s)).length ≤ 1) :
    (getOrCreate rows n s).1.name = n ∧ (getOrCreate rows n s).1.slug = s ∧
    (getOrCreate rows n s).2.filter (fun c => c.name == n && c.slug == s)
      = [(getOrCreate rows n s).1] := by
  unfold getOrCreate
  cases hf : rows.find? (fun c => c.name == n && c.slug == s) with
  | some c =>
      simp only [hf]
      have hp := List.find?_some hf
      rw [Bool.and_eq_true, beq_iff_eq, beq_iff_eq] at hp
      exact ⟨hp.1, hp.2, filter_eq_single_of_find? hf h⟩
  | none =>
      simp only [hf]
      refine ⟨by trivial, by trivial, ?_⟩
      rw [List.filter_append]
      have hnil : rows.filter (fun c => c.name == n && c.slug == s) = [] := by
        rw [List.filter_eq_nil_iff]
        intro c hc
        have := List.find?_eq_none.mp hf c hc
        simpa using this
      rw [hnil]
      simp

/-- A second `get_or_create` with the same payload resolves to the row the
first one returned and leaves the store untouched. -/
lemma getOrCreate_of_filter_single {rows : List Label} {n s : String}
    {cat : Label}
    (h : rows.filter (fun c => c.name == n && c.slug == s) = [cat]) :
    getOrCreate rows n s = (cat, rows) := by
  unfold getOrCreate
  rw [find?_of_filter_eq_single h]

/-- C9: Category get-or-create is idempotent across post creations
(serializers.py:103-116): starting from a category store in which at most
one row matches the payload's unique name+slug, creating two posts that
both reference `{name, slug}` ends with EXACTLY one matching Category row,
and both created posts reference that same row. -/
theorem C9_category_shared_across_posts
    (cats tagStore : List Label) (posts : List BlogPost)
    (a1 a2 : Nat) (t1 c1 t2 c2 : String) (name slug : String)
    (td1 td2 : List (String × String))
    (p1 p2 : BlogPost) (cats1 cats2 tags1 tags2 : List Label)
    (posts1 posts2 : List BlogPost)
    (hu : (cats.filter (fun c => c.name == name && c.slug == slug)).length ≤ 1)
    (h1 : blogPostSerializerCreate cats tagStore posts a1 t1 c1 (name, slug)
        td1 = (p1, cats1, tags1, posts1))
    (h2 : blogPostSerializerCreate cats1 tags1 posts1 a2 t2 c2 (name, slug)
        td2 = (p2, cats2, tags2, posts2)) :
    ∃ cat : Label, cat.name = name ∧ cat.slug = slug ∧
      p1.category = some cat.id ∧ p2.category = some cat.id ∧
      cats2.filter (fun c => c.name == name && c.slug == slug) = [cat] := by
  obtain ⟨hn, hs, hone⟩ := getOrCreate_spec cats name slug hu
  unfold blogPostSerializerCreate at h1 h2
  simp only [Prod.mk.injEq] at h1 h2
  obtain ⟨hp1, hc1, ht1, hl1⟩ := h1
  obtain ⟨hp2, hc2, ht2, hl2⟩ := h2
  subst hp1
  subst hc1
  subst ht1
  subst hl1
  subst hp2
  subst hc2
  subst ht2
  subst hl2
  have hsecond := getOrCreate_of_filter_single hone
  refine ⟨(getOrCreate cats name slug).1, hn, hs, rfl, ?_, ?_⟩
  · rw [hsecond]
  · rw [hsecond]
    exact hone

/-- C9 witness: The theorem instantiated at the spec's own example: two
posts created with category `{name: "Tech", slug: "tech"}` starting from an
empty category store share the single resulting "Tech" row. -/
theorem C9_category_shared_across_posts_witness :
    (([] : List Label).filter
        (fun c => c.name == "Tech" && c.slug == "tech")).length ≤ 1 ∧
    ∃ cat : Label, cat.name = "Tech" ∧ cat.slug = "tech" ∧
      (blogPostSerializerCreate [] [] [] 1 "P1" "c1" ("Tech", "tech")
          []).1.category = some cat.id ∧
      (blogPostSerializerCreate [⟨1, "Tech", "tech"⟩] [] [⟨1, "P1", "c1", 1,
          some 1, []⟩] 2 "P2" "c2" ("Tech", "tech") []).1.category
        = some cat.id ∧
      [(⟨1, "Tech", "tech"⟩ : Label)].filter
          (fun c => c.name == "Tech" && c.slug == "tech") = [cat] :=
  ⟨by decide,
    C9_category_shared_across_posts [] [] [] 1 2 "P1" "c1" "P2" "c2"
      "Tech" "tech" [] []
      ⟨1, "P1", "c1", 1, some 1, []⟩
      ⟨2, "P2", "c2", 2, some 1, []⟩
      [⟨1, "Tech", "tech"⟩] [⟨1, "Tech", "tech"⟩] [] []
      [⟨1, "P1", "c1", 1, some 1, []⟩]
      [⟨1, "P1", "c1", 1, some 1, []⟩, ⟨2, "P2", "c2", 2, some 1, []⟩]
      (by decide) rfl rfl⟩

end BlogApi
